import Mathlib

/-!
Shallow embedding of the walkie-talkie repository (src/c_end.py, src/s_end.py).

The repository has two endpoints of a push-to-talk voice link:
`c_end.py` (the Caller, class `WebRTCClient` with the PTT-gated
`AudioInputTrack`) and `s_end.py` (the Responder, class `WebRTCServer`).
Signaling travels over MQTT on three fixed topics; audio capture and
playback go through pyaudio; the WebRTC transport engine (aiortc) is an
external collaborator whose description/answer contents are treated as
oracles.

Modelling conventions:
- Python `str` payload text is represented by its UTF-8 byte sequence
  (`List Nat`); `bytes.decode()` is the fallible `utf8Decode` below,
  implemented as a faithful RFC 3629 / CPython-strict validator.
- Audio sample data is represented as a list of 16-bit sample values
  (`List Int`); the `np.frombuffer(..., int16)` / `tobytes()` round trip in
  `AudioInputTrack.recv` is the identity on whole-sample data, so planes
  carry sample lists directly.
- pyaudio device handles are modelled with their library-level guards
  (`Stream._is_running`, the C layer's `is_open` / NULL-stream cleanup
  guard, PortAudio's initialisation flag), since `AudioInputTrack.stop`'s
  behaviour on a second call is decided by those guards.
- Exceptions are `Except String`; an `Except.error` marks a raised Python
  exception escaping the modelled function.
-/

namespace Talkie

/-- `CHUNK = 960` from both source files: samples per 20 ms frame at 48 kHz. -/
def CHUNK : Nat := 960

/-- `SAMPLE_RATE = 48000` from both source files. -/
def SAMPLE_RATE : Nat := 48000

/-- `OFFER_TOPIC` from both source files. -/
def OFFER_TOPIC : String := "walkie-talkie/offer"

/-- `ANSWER_TOPIC` from both source files. -/
def ANSWER_TOPIC : String := "walkie-talkie/answer"

/-- `ICE_TOPIC` from both source files. -/
def ICE_TOPIC : String := "walkie-talkie/ice"

/-! ## UTF-8 decoding (`bytes.decode()` in both `on_message` handlers)

Python's strict UTF-8 decoder accepts exactly the RFC 3629 byte sequences
(no overlong forms, no surrogates, nothing above U+10FFFF).  We model it as
a byte-at-a-time automaton whose state is the list of byte ranges still
expected to finish the current multi-byte sequence. -/

/-- One automaton step: `expected` is the list of inclusive byte ranges the
current multi-byte sequence still requires; on an empty `expected` the byte
is a sequence leader.  `none` means the byte is rejected. -/
def utf8Step (expected : List (Nat × Nat)) (b : Nat) : Option (List (Nat × Nat)) :=
  match expected with
  | (lo, hi) :: rest => if lo ≤ b && b ≤ hi then some rest else none
  | [] =>
    if b ≤ 0x7F then some []
    else if 0xC2 ≤ b && b ≤ 0xDF then some [(0x80, 0xBF)]
    else if b = 0xE0 then some [(0xA0, 0xBF), (0x80, 0xBF)]
    else if b = 0xED then some [(0x80, 0x9F), (0x80, 0xBF)]
    else if 0xE1 ≤ b && b ≤ 0xEF then some [(0x80, 0xBF), (0x80, 0xBF)]
    else if b = 0xF0 then some [(0x90, 0xBF), (0x80, 0xBF), (0x80, 0xBF)]
    else if b = 0xF4 then some [(0x80, 0x8F), (0x80, 0xBF), (0x80, 0xBF)]
    else if 0xF1 ≤ b && b ≤ 0xF3 then some [(0x80, 0xBF), (0x80, 0xBF), (0x80, 0xBF)]
    else none

/-- Run the automaton over a byte list from a given state. -/
def utf8Run : List (Nat × Nat) → List Nat → Option (List (Nat × Nat))
  | st, [] => some st
  | st, b :: rest =>
    match utf8Step st b with
    | none => none
    | some st2 => utf8Run st2 rest

/-- A byte list is valid UTF-8 when the automaton consumes it completely and
ends with no continuation bytes outstanding. -/
def utf8Valid (l : List Nat) : Bool :=
  match utf8Run [] l with
  | some [] => true
  | _ => false

/-- `payload.decode()`: returns the text (identified with its bytes) on valid
UTF-8 input, raises `UnicodeDecodeError` otherwise. -/
def utf8Decode (l : List Nat) : Except String (List Nat) :=
  if utf8Valid l then .ok l else .error "UnicodeDecodeError"

/-! ## pyaudio capture device model

`AudioInputTrack.__init__` opens one input stream (`self.stream`) on one
PortAudio context (`self.p`).  The `Stream` record carries the pyaudio
Python-level `_is_running` flag, the C-level open flag, the data the device
will deliver, an overflow flag, and counters of the underlying PortAudio
operations actually performed (used to state "released exactly once"). -/

structure Stream where
  /-- pyaudio `Stream._is_running` (true after `open`, which starts the stream). -/
  is_running : Bool
  /-- C-level `is_open` / non-NULL PortAudio stream: false once cleaned up. -/
  pa_open : Bool
  /-- the device signals overflow on the next read. -/
  overflowed : Bool
  /-- chunks (as lists of 16-bit samples) the device will deliver, in order. -/
  pending : List (List Int)
  /-- completed underlying `Pa_StopStream` operations. -/
  stopCount : Nat
  /-- completed underlying `Pa_CloseStream` operations. -/
  closeCount : Nat
  /-- completed underlying `Pa_ReadStream` operations. -/
  readCount : Nat
deriving Repr, DecidableEq

/-- `Stream.read(nframes, exception_on_overflow)`.  On a closed stream the C
layer raises `IOError("Stream closed")`.  When the device reports overflow
and `exception_on_overflow` is true, `IOError` is raised; with it false the
call returns whatever data the device produced.  A device read always yields
one chunk (the next pending chunk, or zeros if the model's supply is empty)
and clears the overflow flag. -/
def Stream.read (s : Stream) (nframes : Nat) (exceptionOnOverflow : Bool) :
    Except String (List Int × Stream) :=
  if !s.pa_open then .error "Stream closed"
  else if s.overflowed && exceptionOnOverflow then .error "input overflowed"
  else
    .ok (s.pending.headD (List.replicate nframes 0),
      { s with pending := s.pending.tail, overflowed := false,
               readCount := s.readCount + 1 })

/-- pyaudio `Stream.stop_stream`: guarded by `_is_running` (a second call is
a no-op); on a running but closed stream the C layer would raise. -/
def Stream.stop_stream (s : Stream) : Except String Stream :=
  if !s.is_running then .ok s
  else if !s.pa_open then .error "Stream closed"
  else .ok { s with is_running := false, stopCount := s.stopCount + 1 }

/-- pyaudio `Stream.close`: the C cleanup closes the underlying stream only
if it is still open (a second close is a no-op), then `_is_running` is
cleared.  Never raises. -/
def Stream.close (s : Stream) : Stream :=
  if s.pa_open then
    { s with pa_open := false, is_running := false, closeCount := s.closeCount + 1 }
  else { s with is_running := false }

/-! ## `AudioInputTrack` (src/c_end.py lines 22-70) -/

/-- An `av.AudioFrame` as built by `AudioInputTrack.recv`: `s16` format,
mono layout, `CHUNK` samples, one plane whose payload is `data`. -/
structure AudioFrame where
  format : String
  layout : String
  samples : Nat
  /-- the bytes written into `frame.planes[0]`, as 16-bit samples. -/
  data : List Int
  pts : Nat
  time_base : Nat × Nat
deriving Repr, DecidableEq

/-- State of one `AudioInputTrack` together with its owned pyaudio objects.
`self.stream` is assigned exactly once in `__init__` and never reassigned,
so the `if self.stream:` truthiness test in `stop` is always true; the
stream is therefore embedded directly.  `registered` models membership of
the stream in `self.p`'s stream set (`PyAudio._streams`); `paInitialized`
models PortAudio being initialised, and `paTerminations` counts effective
`Pa_Terminate` operations. -/
structure AudioInputTrack where
  stream : Stream
  registered : Bool
  paInitialized : Bool
  paTerminations : Nat
  /-- `self.is_active`, the PTT flag (mutated under `self.lock`). -/
  is_active : Bool
  /-- presentation-timestamp counter behind `next_timestamp()`. -/
  pts : Nat
deriving Repr, DecidableEq

/-- The track as built by `AudioInputTrack.__init__`: a freshly opened,
running input stream delivering `dev` from the microphone, PortAudio
initialised, PTT off. -/
def initTrack (dev : List (List Int)) : AudioInputTrack :=
  { stream := { is_running := true, pa_open := true, overflowed := false,
                pending := dev, stopCount := 0, closeCount := 0, readCount := 0 },
    registered := true, paInitialized := true, paTerminations := 0,
    is_active := false, pts := 0 }

/-- `AudioInputTrack.set_ptt(active)`: overwrite `is_active` under the lock. -/
def AudioInputTrack.set_ptt (t : AudioInputTrack) (active : Bool) : AudioInputTrack :=
  { t with is_active := active }

/-- The silence frame built in the gate-closed branch of `recv`:
`bytes(CHUNK * 2)` written into an `s16`/`mono`/`CHUNK`-sample frame is
`CHUNK` zero samples. -/
def silenceFrame (pts : Nat) : AudioFrame :=
  { format := "s16", layout := "mono", samples := CHUNK,
    data := List.replicate CHUNK 0, pts := pts, time_base := (1, SAMPLE_RATE) }

/-- `AudioInputTrack.recv` (src/c_end.py lines 36-60).  Takes the next
timestamp, then under the lock: if PTT is off, return an all-zero frame
without touching the device; otherwise read one `CHUNK` from the device
with `exception_on_overflow=False` and return a frame carrying exactly the
returned data (the `np.frombuffer`/`tobytes` round trip is the identity). -/
def AudioInputTrack.recv (t : AudioInputTrack) :
    Except String (AudioFrame × AudioInputTrack) :=
  let pts := t.pts
  let t1 : AudioInputTrack := { t with pts := t.pts + CHUNK }
  if !t1.is_active then
    .ok (silenceFrame pts, t1)
  else
    match t1.stream.read CHUNK false with
    | .error e => .error e
    | .ok (data, s2) =>
      .ok ({ format := "s16", layout := "mono", samples := CHUNK,
             data := data, pts := pts, time_base := (1, SAMPLE_RATE) },
           { t1 with stream := s2 })

/-- `PyAudio.terminate`: closes any stream still registered with the
context, clears the registry, then calls `Pa_Terminate` (effective only
while PortAudio is initialised; a later call is a no-op).  Never raises. -/
def AudioInputTrack.terminatePA (t : AudioInputTrack) : AudioInputTrack :=
  let t2 := if t.registered then
      { t with stream := t.stream.close, registered := false }
    else t
  if t2.paInitialized then
    { t2 with paInitialized := false, paTerminations := t2.paTerminations + 1 }
  else t2

/-- `AudioInputTrack.stop` (src/c_end.py lines 66-70): `if self.stream:`
(always true, the attribute always holds a stream object) then
`stop_stream`, `close` (which also deregisters the stream from `self.p`),
then `self.p.terminate()`. -/
def AudioInputTrack.stop (t : AudioInputTrack) : Except String AudioInputTrack :=
  match t.stream.stop_stream with
  | .error e => .error e
  | .ok s1 =>
    let s2 := s1.close
    let t2 : AudioInputTrack := { t with stream := s2, registered := false }
    .ok t2.terminatePA

/-! ## Playback Sink (`play_audio`, identical in src/c_end.py lines 98-115
and src/s_end.py lines 43-61)

`play_audio` opens one pyaudio output stream, then loops: `frame = await
track.recv()`, `stream.write(frame.planes[0].to_bytes())`; any exception
breaks the loop, after which the output stream is stopped, closed and the
context terminated, and the coroutine returns normally.  The inbound track
is modelled as the sequence of results its successive `recv` calls would
return. -/

/-- The output device owned by one `play_audio` run: the chunks written so
far, in order, and counters of the underlying stop/close/terminate
operations. -/
structure OutStream where
  written : List (List Int)
  stopCount : Nat
  closeCount : Nat
  termCount : Nat
deriving Repr, DecidableEq

/-- The output stream as opened at the top of `play_audio`. -/
def freshOut : OutStream :=
  { written := [], stopCount := 0, closeCount := 0, termCount := 0 }

/-- The teardown after the loop breaks: `stream.stop_stream()`,
`stream.close()`, `p.terminate()`. -/
def OutStream.finish (o : OutStream) : OutStream :=
  { o with stopCount := o.stopCount + 1, closeCount := o.closeCount + 1,
           termCount := o.termCount + 1 }

/-- The `while True` loop of `play_audio` over the track's pull results.
Returns the output-device state and whether the coroutine has terminated:
a failed pull breaks the loop, runs the teardown and terminates normally
(the exception is caught, never re-raised); a successful pull writes the
frame's plane bytes and continues; if the supplied pull sequence runs out
without a failure the loop is still awaiting the next frame. -/
def playLoop : List (Except String AudioFrame) → OutStream → OutStream × Bool
  | [], o => (o, false)
  | .error _ :: _, o => (o.finish, true)
  | .ok f :: rest, o => playLoop rest { o with written := o.written ++ [f.data] }

/-- A whole `play_audio` run against a track whose pulls are `pulls`. -/
def play_audio (pulls : List (Except String AudioFrame)) : OutStream × Bool :=
  playLoop pulls freshOut

/-! ## Inbound-track handling (`on_track`, src/c_end.py lines 89-93 and
src/s_end.py lines 36-40)

Both endpoints register the same handler: on every `track` event whose
track kind is `"audio"`, create a new `play_audio` task for it and store it
in `self.player_task` (overwriting any previous one).  There is no check
whether the track already has a player. -/

/-- An inbound track as reported by the transport engine. -/
structure TrackInfo where
  kind : String
  id : Nat
deriving Repr, DecidableEq

/-- The playback-consumer bookkeeping of one endpoint: the track ids for
which a `play_audio` task has been started, in start order, and
`self.player_task` (the id of the most recently started task's track). -/
structure PlayerState where
  players : List Nat
  player_task : Option Nat
deriving Repr, DecidableEq

/-- State before any track event. -/
def noPlayers : PlayerState := { players := [], player_task := none }

/-- The `on_track` handler: start a playback task iff the track kind is
`"audio"`. -/
def on_track (st : PlayerState) (tr : TrackInfo) : PlayerState :=
  if tr.kind = "audio" then
    { players := st.players ++ [tr.id], player_task := some tr.id }
  else st

/-! ## Signaling model (MQTT + peer-connection descriptions)

An SDP session description; `sdp` text is carried as UTF-8 bytes. -/

structure SessionDescription where
  sdp : List Nat
  dtype : String
deriving Repr, DecidableEq

/-- The description-relevant state of one `RTCPeerConnection`. -/
structure PeerConnection where
  localDescription : Option SessionDescription
  remoteDescription : Option SessionDescription
deriving Repr, DecidableEq

/-- A peer connection as freshly constructed. -/
def freshPC : PeerConnection :=
  { localDescription := none, remoteDescription := none }

/-- Externally visible operations performed while handling a signaling
event, in execution order. -/
inductive SigEvent
  | setRemote (d : SessionDescription)
  | createAnswer (d : SessionDescription)
  | createOffer (d : SessionDescription)
  | setLocal (d : SessionDescription)
  | publish (topic : String) (payload : List Nat)
deriving Repr, DecidableEq

/-- Does an event publish on the given topic? -/
def SigEvent.isPublishOn (e : SigEvent) (topic : String) : Bool :=
  match e with
  | .publish t _ => t = topic
  | _ => false

/-- The subscription set of one paho MQTT client. -/
structure MqttClient where
  subscriptions : List (String × Nat)
deriving Repr, DecidableEq

/-- A client before its `on_connect` callback has run. -/
def freshMqtt : MqttClient := { subscriptions := [] }

/-- The broker delivers a message published on `topic` to a client's
`on_message` callback iff the client has subscribed to that topic (the
three fixed topic names contain no wildcards, so matching is equality). -/
def mqttDelivers (c : MqttClient) (topic : String) : Bool :=
  c.subscriptions.any (fun p => p.1 = topic)

/-- `WebRTCServer.on_connect` (src/s_end.py lines 69-71): subscribe to the
Offer and IceCandidate topics. -/
def serverOnConnect (c : MqttClient) : MqttClient :=
  { c with subscriptions := c.subscriptions ++ [(OFFER_TOPIC, 0), (ICE_TOPIC, 0)] }

/-! ### Responder (`WebRTCServer`, src/s_end.py)

`createAnswer` is performed by the external transport engine; the sdp text
it would produce is passed in as the oracle argument `ans`. -/

/-- The signaling-relevant state of one `WebRTCServer`. -/
structure ServerState where
  pc : PeerConnection
deriving Repr, DecidableEq

/-- A server as freshly constructed. -/
def freshServer : ServerState := { pc := freshPC }

/-- `WebRTCServer.handle_offer` (src/s_end.py lines 86-95): wrap the sdp as
an offer, `setRemoteDescription`, `createAnswer` (engine oracle `ans`),
`setLocalDescription`, then publish `self.pc.localDescription.sdp` on the
Answer topic.  No guard of any kind precedes these steps. -/
def handle_offer (ans : List Nat) (srv : ServerState) (sdp : List Nat) :
    ServerState × List SigEvent :=
  let offer : SessionDescription := { sdp := sdp, dtype := "offer" }
  let pc1 := { srv.pc with remoteDescription := some offer }
  let answer : SessionDescription := { sdp := ans, dtype := "answer" }
  let pc2 := { pc1 with localDescription := some answer }
  ({ srv with pc := pc2 },
   [.setRemote offer, .createAnswer answer, .setLocal answer,
    .publish ANSWER_TOPIC ans])

/-- One inbound MQTT message: a topic and a raw byte payload. -/
structure MqttMessage where
  topic : String
  payload : List Nat
deriving Repr, DecidableEq

/-- `WebRTCServer.on_message` (src/s_end.py lines 73-80) composed with the
handler task it schedules onto the loop: first `msg.payload.decode()`
(raising on invalid UTF-8 before any topic dispatch), then on the Offer
topic run `handle_offer`, on the IceCandidate topic `pass`, on any other
topic fall through doing nothing. -/
def serverOnMessage (ans : List Nat) (srv : ServerState) (msg : MqttMessage) :
    Except String (ServerState × List SigEvent) :=
  match utf8Decode msg.payload with
  | .error e => .error e
  | .ok payload =>
    if msg.topic = OFFER_TOPIC then .ok (handle_offer ans srv payload)
    else if msg.topic = ICE_TOPIC then .ok (srv, [])
    else .ok (srv, [])

/-! ### Caller (`WebRTCClient`, src/c_end.py)

`createOffer` is performed by the external transport engine; the sdp text
it would produce is the oracle argument `off`. -/

/-- The signaling-relevant state of one `WebRTCClient`. -/
structure ClientState where
  pc : PeerConnection
deriving Repr, DecidableEq

/-- A client as freshly constructed. -/
def freshClient : ClientState := { pc := freshPC }

/-- `WebRTCClient.create_offer` (src/c_end.py lines 130-133): `createOffer`
(engine oracle `off`), `setLocalDescription`, publish
`self.pc.localDescription.sdp` on the Offer topic. -/
def create_offer (off : List Nat) (cl : ClientState) : ClientState × List SigEvent :=
  let offer : SessionDescription := { sdp := off, dtype := "offer" }
  let pc1 := { cl.pc with localDescription := some offer }
  ({ cl with pc := pc1 },
   [.createOffer offer, .setLocal offer, .publish OFFER_TOPIC off])

/-- `WebRTCClient.on_connect` (src/c_end.py lines 123-125) composed with the
`create_offer` task it schedules onto the loop.  No subscribe call is made
anywhere in src/c_end.py, so the subscription set is returned unchanged. -/
def clientOnConnect (off : List Nat) (c : MqttClient) (cl : ClientState) :
    MqttClient × ClientState × List SigEvent :=
  let (cl2, evs) := create_offer off cl
  (c, cl2, evs)

/-- `WebRTCClient.handle_answer` (src/c_end.py lines 145-147): wrap the sdp
as an answer and `setRemoteDescription`. -/
def handle_answer (cl : ClientState) (sdp : List Nat) : ClientState × List SigEvent :=
  let answer : SessionDescription := { sdp := sdp, dtype := "answer" }
  ({ cl with pc := { cl.pc with remoteDescription := some answer } },
   [.setRemote answer])

/-- `WebRTCClient.on_message` (src/c_end.py lines 135-140) composed with the
handler task it schedules: `msg.payload.decode()` first (raising on invalid
UTF-8 before any topic dispatch), then on the Answer topic run
`handle_answer`, on the IceCandidate topic `pass`, otherwise nothing. -/
def clientOnMessage (cl : ClientState) (msg : MqttMessage) :
    Except String (ClientState × List SigEvent) :=
  match utf8Decode msg.payload with
  | .error e => .error e
  | .ok payload =>
    if msg.topic = ANSWER_TOPIC then .ok (handle_answer cl payload)
    else if msg.topic = ICE_TOPIC then .ok (cl, [])
    else .ok (cl, [])

/-! ## Claims -/

/-- Claim C4: the stop operation of the audio source is idempotent.  For
any track whose capture handle is in the freshly-opened condition
(`__init__` leaves it running, open, registered, with PortAudio
initialised — `recv` and `set_ptt` never change those four flags), two
consecutive `stop` calls both return without error, and across both calls
the underlying device stop, device close and PortAudio termination each
happen exactly once. -/
theorem c4_stop_idempotent (t : AudioInputTrack)
    (h1 : t.stream.is_running = true) (h2 : t.stream.pa_open = true)
    (h3 : t.registered = true) (h4 : t.paInitialized = true) :
    ∃ t1 t2, t.stop = .ok t1 ∧ t1.stop = .ok t2
      ∧ t2.stream.stopCount = t.stream.stopCount + 1
      ∧ t2.stream.closeCount = t.stream.closeCount + 1
      ∧ t2.paTerminations = t.paTerminations + 1 := by
  obtain ⟨⟨ir, po, ov, pend, sc, cc, rc⟩, reg, pi, pt, ia, pk⟩ := t
  obtain rfl : ir = true := h1
  obtain rfl : po = true := h2
  obtain rfl : reg = true := h3
  obtain rfl : pi = true := h4
  exact ⟨_, _, rfl, rfl, rfl, rfl, rfl⟩

/-- Witness for C4 at the track as constructed by `__init__` with an empty
device supply. -/
theorem c4_stop_idempotent_witness :
    ∃ t1 t2, (initTrack []).stop = .ok t1 ∧ t1.stop = .ok t2
      ∧ t2.stream.stopCount = (initTrack []).stream.stopCount + 1
      ∧ t2.stream.closeCount = (initTrack []).stream.closeCount + 1
      ∧ t2.paTerminations = (initTrack []).paTerminations + 1 :=
  c4_stop_idempotent (initTrack []) rfl rfl rfl rfl

/-- Claim C5: the pull after `set_ptt false` yields the fixed-shape silence
frame (960 mono 16-bit samples, all zero), and the pull after
`set_ptt true` — assuming the device is open, so no device error — yields a
frame carrying exactly the samples read from the capture device. -/
theorem c5_ptt_gate (t : AudioInputTrack) (chunk : List Int)
    (rest : List (List Int))
    (hpa : t.stream.pa_open = true)
    (hpend : t.stream.pending = chunk :: rest) :
    ((t.set_ptt false).recv
        = .ok (silenceFrame t.pts, { t with is_active := false, pts := t.pts + CHUNK })
      ∧ (silenceFrame t.pts).data = List.replicate 960 0
      ∧ (silenceFrame t.pts).samples = 960
      ∧ (silenceFrame t.pts).format = "s16"
      ∧ (silenceFrame t.pts).layout = "mono")
    ∧ ((t.set_ptt true).recv).map (fun p => (p.1.data, p.1.samples))
        = .ok (chunk, 960) := by
  refine ⟨⟨?_, rfl, rfl, rfl, rfl⟩, ?_⟩
  · simp [AudioInputTrack.recv, AudioInputTrack.set_ptt]
  · simp [AudioInputTrack.recv, AudioInputTrack.set_ptt, Stream.read, hpa, hpend,
      Except.map, CHUNK]

/-- Witness for C5 at a fresh track whose device will deliver one chunk. -/
theorem c5_ptt_gate_witness :
    (((initTrack [[3, 4]]).set_ptt false).recv
        = .ok (silenceFrame (initTrack [[3, 4]]).pts,
               { (initTrack [[3, 4]]) with
                 is_active := false, pts := (initTrack [[3, 4]]).pts + CHUNK })
      ∧ (silenceFrame (initTrack [[3, 4]]).pts).data = List.replicate 960 0
      ∧ (silenceFrame (initTrack [[3, 4]]).pts).samples = 960
      ∧ (silenceFrame (initTrack [[3, 4]]).pts).format = "s16"
      ∧ (silenceFrame (initTrack [[3, 4]]).pts).layout = "mono")
    ∧ (((initTrack [[3, 4]]).set_ptt true).recv).map
        (fun p => (p.1.data, p.1.samples)) = .ok ([3, 4], 960) :=
  c5_ptt_gate (initTrack [[3, 4]]) [3, 4] [] rfl rfl

/-- Claim C8: with the gate open and the device signalling
overflow/underflow, the frame pull does not raise: `recv` reads with
`exception_on_overflow=False` and returns a frame carrying exactly whatever
data the device produced; the silence-frame construction lives only in the
gate-closed branch. -/
theorem c8_overflow_failsoft (t : AudioInputTrack)
    (ha : t.is_active = true) (hpa : t.stream.pa_open = true)
    (_hov : t.stream.overflowed = true) :
    t.recv.map (fun p => p.1) = .ok
      { format := "s16", layout := "mono", samples := CHUNK,
        data := t.stream.pending.headD (List.replicate CHUNK 0),
        pts := t.pts, time_base := (1, SAMPLE_RATE) } := by
  simp [AudioInputTrack.recv, Stream.read, ha, hpa, Except.map]

/-- Witness for C8 at a running track in overflow condition. -/
theorem c8_overflow_failsoft_witness :
    (AudioInputTrack.recv
        { stream := { is_running := true, pa_open := true, overflowed := true,
                      pending := [[7, 8]], stopCount := 0, closeCount := 0,
                      readCount := 0 },
          registered := true, paInitialized := true, paTerminations := 0,
          is_active := true, pts := 0 }).map (fun p => p.1)
      = .ok { format := "s16", layout := "mono", samples := CHUNK,
              data := [7, 8], pts := 0, time_base := (1, SAMPLE_RATE) } :=
  c8_overflow_failsoft
    { stream := { is_running := true, pa_open := true, overflowed := true,
                  pending := [[7, 8]], stopCount := 0, closeCount := 0,
                  readCount := 0 },
      registered := true, paInitialized := true, paTerminations := 0,
      is_active := true, pts := 0 } rfl rfl rfl

/-- Claim C10: a pull that observes the gate closed performs no read on the
capture device: the silence frame is built in memory and the device state
(including its read counter and pending data) is exactly what it was. -/
theorem c10_gate_closed_no_read (t : AudioInputTrack)
    (h : t.is_active = false) :
    t.recv = .ok (silenceFrame t.pts, { t with pts := t.pts + CHUNK })
    ∧ ∀ fr t2, t.recv = .ok (fr, t2) → t2.stream = t.stream := by
  have he : t.recv = .ok (silenceFrame t.pts, { t with pts := t.pts + CHUNK }) := by
    simp [AudioInputTrack.recv, h]
  refine ⟨he, ?_⟩
  intro fr t2 h2
  rw [he] at h2
  cases h2
  rfl

/-- Witness for C10 at a fresh track (gate starts closed). -/
theorem c10_gate_closed_no_read_witness :
    (initTrack [[1]]).recv
        = .ok (silenceFrame (initTrack [[1]]).pts,
               { (initTrack [[1]]) with pts := (initTrack [[1]]).pts + CHUNK })
    ∧ ∀ fr t2, (initTrack [[1]]).recv = .ok (fr, t2)
        → t2.stream = (initTrack [[1]]).stream :=
  c10_gate_closed_no_read (initTrack [[1]]) rfl

/-- Auxiliary for C7: successful pulls are written through in order while
the loop continues. -/
theorem playLoop_ok_prefix (frames : List AudioFrame)
    (l : List (Except String AudioFrame)) (o : OutStream) :
    playLoop (frames.map Except.ok ++ l) o
      = playLoop l { o with written := o.written ++ frames.map AudioFrame.data } := by
  induction frames generalizing o with
  | nil => simp
  | cons f fs ih =>
    simp [playLoop, ih, List.append_assoc]

/-- Claim C7: a Playback Sink run over a track that yields `frames` and
then fails writes exactly the raw sample data of each frame, in arrival
order; at the first failed pull it stops pulling (the result ignores
whatever would come after the failure), performs exactly one device stop,
one device close and one context termination, and the coroutine terminates
normally (the caught exception is never re-raised). -/
theorem c7_playback_sink (frames : List AudioFrame) (err : String)
    (rest : List (Except String AudioFrame)) :
    play_audio (frames.map Except.ok ++ Except.error err :: rest)
      = ({ written := frames.map AudioFrame.data,
           stopCount := 1, closeCount := 1, termCount := 1 }, true) := by
  rw [play_audio, playLoop_ok_prefix]
  simp [playLoop, freshOut, OutStream.finish]

/-- Claim C3, counterexample: two inbound-track notifications for the same
audio track start two playback consumers — `on_track` has no
already-bound check, so the claim's "at most one playback consumer per
track per session" fails on the duplicate-notification sequence. -/
theorem c3_counterexample :
    (on_track (on_track noPlayers { kind := "audio", id := 0 })
        { kind := "audio", id := 0 }).players = [0, 0]
    ∧ ((on_track (on_track noPlayers { kind := "audio", id := 0 })
        { kind := "audio", id := 0 }).players.count 0 = 2) := by
  constructor <;> rfl

/-- Claim C3 as amended: every audio-kind inbound-track notification starts
one playback consumer (non-audio notifications start none), with no
deduplication: after any sequence of notifications the started consumers
are exactly the ids of the audio-kind notifications, in order — so a
repeated notification for an already-bound track starts an additional
consumer. -/
theorem c3_amended (seq : List TrackInfo) :
    (seq.foldl on_track noPlayers).players
      = (seq.filter (fun tr => tr.kind = "audio")).map TrackInfo.id := by
  suffices h : ∀ st : PlayerState, (seq.foldl on_track st).players
      = st.players ++ (seq.filter (fun tr => tr.kind = "audio")).map TrackInfo.id by
    simpa [noPlayers] using h noPlayers
  induction seq with
  | nil => intro st; simp
  | cons tr rest ih =>
    intro st
    by_cases hk : tr.kind = "audio" <;>
      simp [on_track, hk, ih, List.append_assoc]

/-- Claim C1, code evaluated at the failing input: on connect the
Responder does subscribe to the Offer and IceCandidate topics, and the
Caller indeed does not subscribe to the Offer topic — but only because its
`on_connect` subscribes to nothing at all, the Answer topic included.  The
broker therefore never delivers a message published on the Answer topic to
the Caller, so `WebRTCClient.on_message` never receives the answer,
contradicting the claim (the Answer branch of `on_message` and
`handle_answer` are unreachable). -/
theorem c1_caller_never_subscribes :
    (serverOnConnect freshMqtt).subscriptions = [(OFFER_TOPIC, 0), (ICE_TOPIC, 0)]
    ∧ (clientOnConnect [5] freshMqtt freshClient).1.subscriptions = []
    ∧ mqttDelivers (clientOnConnect [5] freshMqtt freshClient).1 ANSWER_TOPIC
        = false
    ∧ mqttDelivers (clientOnConnect [5] freshMqtt freshClient).1 OFFER_TOPIC
        = false := by
  exact ⟨rfl, rfl, rfl, rfl⟩

/-- Claim C2, counterexample: a Responder that has handled one offer (and
is therefore holding both descriptions) receives a second offer message on
the Offer topic; `on_message`/`handle_offer` process it exactly like the
first, replacing the remote description and publishing a second answer —
nothing is rejected and the state does change. -/
theorem c2_counterexample :
    (handle_offer [10] freshServer [1]).1
      = { pc := { localDescription := some { sdp := [10], dtype := "answer" },
                  remoteDescription := some { sdp := [1], dtype := "offer" } } }
    ∧ serverOnMessage [11] (handle_offer [10] freshServer [1]).1
        { topic := OFFER_TOPIC, payload := [2] }
      = .ok ({ pc := { localDescription := some { sdp := [11], dtype := "answer" },
                       remoteDescription := some { sdp := [2], dtype := "offer" } } },
             [.setRemote { sdp := [2], dtype := "offer" },
              .createAnswer { sdp := [11], dtype := "answer" },
              .setLocal { sdp := [11], dtype := "answer" },
              .publish ANSWER_TOPIC [11]]) := by
  exact ⟨rfl, rfl⟩

/-- Claim C2 as amended: receiving a second offer while already holding
local and remote descriptions is not rejected — the handler processes it
exactly like the first offer: it overwrites the remote description with the
new offer, sets a fresh local answer, and publishes one further answer
message on the Answer topic. -/
theorem c2_amended (ans sdp : List Nat) (srv : ServerState)
    (d1 d2 : SessionDescription)
    (_hl : srv.pc.localDescription = some d1)
    (_hr : srv.pc.remoteDescription = some d2)
    (hv : utf8Valid sdp = true) :
    serverOnMessage ans srv { topic := OFFER_TOPIC, payload := sdp }
      = .ok (handle_offer ans srv sdp)
    ∧ ((handle_offer ans srv sdp).2.filter
        (fun e => e.isPublishOn ANSWER_TOPIC)).length = 1
    ∧ (handle_offer ans srv sdp).1.pc.remoteDescription
        = some { sdp := sdp, dtype := "offer" }
    ∧ (handle_offer ans srv sdp).1.pc.localDescription
        = some { sdp := ans, dtype := "answer" } := by
  refine ⟨?_, ?_, rfl, rfl⟩
  · simp [serverOnMessage, utf8Decode, hv]
  · simp [handle_offer, SigEvent.isPublishOn, List.filter]

/-- Witness for the amended C2 at the state reached after a first offer. -/
theorem c2_amended_witness :
    serverOnMessage [11] (handle_offer [10] freshServer [1]).1
        { topic := OFFER_TOPIC, payload := [2] }
      = .ok (handle_offer [11] (handle_offer [10] freshServer [1]).1 [2])
    ∧ ((handle_offer [11] (handle_offer [10] freshServer [1]).1 [2]).2.filter
        (fun e => e.isPublishOn ANSWER_TOPIC)).length = 1
    ∧ (handle_offer [11] (handle_offer [10] freshServer [1]).1 [2]).1.pc.remoteDescription
        = some { sdp := [2], dtype := "offer" }
    ∧ (handle_offer [11] (handle_offer [10] freshServer [1]).1 [2]).1.pc.localDescription
        = some { sdp := [11], dtype := "answer" } :=
  c2_amended [11] [2] (handle_offer [10] freshServer [1]).1
    { sdp := [10], dtype := "answer" } { sdp := [1], dtype := "offer" }
    rfl rfl rfl

/-- Claim C6: a Responder in `New` (no description set yet) that receives
one offer performs, in this order, `setRemoteDescription` of the offer,
`createAnswer`, `setLocalDescription` of the answer, and publishes exactly
one answer message on the Answer topic, ending with both descriptions
set. -/
theorem c6_responder_offer (ans sdp : List Nat) (srv : ServerState)
    (_hl : srv.pc.localDescription = none)
    (_hr : srv.pc.remoteDescription = none) :
    (handle_offer ans srv sdp).2
      = [.setRemote { sdp := sdp, dtype := "offer" },
         .createAnswer { sdp := ans, dtype := "answer" },
         .setLocal { sdp := ans, dtype := "answer" },
         .publish ANSWER_TOPIC ans]
    ∧ ((handle_offer ans srv sdp).2.filter
        (fun e => e.isPublishOn ANSWER_TOPIC)).length = 1
    ∧ (handle_offer ans srv sdp).1.pc.remoteDescription
        = some { sdp := sdp, dtype := "offer" }
    ∧ (handle_offer ans srv sdp).1.pc.localDescription
        = some { sdp := ans, dtype := "answer" } := by
  refine ⟨rfl, ?_, rfl, rfl⟩
  simp [handle_offer, SigEvent.isPublishOn, List.filter]

/-- Witness for C6 at the freshly constructed Responder. -/
theorem c6_responder_offer_witness :
    (handle_offer [10] freshServer [1]).2
      = [.setRemote { sdp := [1], dtype := "offer" },
         .createAnswer { sdp := [10], dtype := "answer" },
         .setLocal { sdp := [10], dtype := "answer" },
         .publish ANSWER_TOPIC [10]]
    ∧ ((handle_offer [10] freshServer [1]).2.filter
        (fun e => e.isPublishOn ANSWER_TOPIC)).length = 1
    ∧ (handle_offer [10] freshServer [1]).1.pc.remoteDescription
        = some { sdp := [1], dtype := "offer" }
    ∧ (handle_offer [10] freshServer [1]).1.pc.localDescription
        = some { sdp := [10], dtype := "answer" } :=
  c6_responder_offer [10] [1] freshServer rfl rfl

/-- Claim C9, counterexample: both `on_message` handlers run
`msg.payload.decode()` before the topic dispatch, so an IceCandidate
message whose payload is the single byte 0xFF (not valid UTF-8) raises
`UnicodeDecodeError` out of the handler on either endpoint — the handler
does crash on this unrecognized payload. -/
theorem c9_counterexample :
    serverOnMessage [0] freshServer { topic := ICE_TOPIC, payload := [255] }
      = .error "UnicodeDecodeError"
    ∧ clientOnMessage freshClient { topic := ICE_TOPIC, payload := [255] }
      = .error "UnicodeDecodeError" := by
  exact ⟨rfl, rfl⟩

/-- Claim C9 as amended: for every inbound IceCandidate message whose
payload decodes as UTF-8 (the empty payload included), the handler of
either endpoint neither crashes nor changes any session state and performs
no signaling action; a payload that is not valid UTF-8 instead makes the
decode step at the top of the handler raise before the topic dispatch. -/
theorem c9_amended (ans payload : List Nat) (srv : ServerState)
    (cl : ClientState) (hv : utf8Valid payload = true) :
    serverOnMessage ans srv { topic := ICE_TOPIC, payload := payload }
      = .ok (srv, [])
    ∧ clientOnMessage cl { topic := ICE_TOPIC, payload := payload }
      = .ok (cl, []) := by
  constructor <;>
    simp +decide [serverOnMessage, clientOnMessage, utf8Decode, hv,
      ICE_TOPIC, OFFER_TOPIC, ANSWER_TOPIC]

/-- Witness for the amended C9 at the empty payload on fresh endpoints. -/
theorem c9_amended_witness :
    serverOnMessage [0] freshServer { topic := ICE_TOPIC, payload := [] }
      = .ok (freshServer, [])
    ∧ clientOnMessage freshClient { topic := ICE_TOPIC, payload := [] }
      = .ok (freshClient, []) :=
  c9_amended [0] [] freshServer freshClient rfl

end Talkie
